import Mathlib

/-!
Verification of the constraint-propagation sudoku solver in `sudoku.py`.

The source program represents a puzzle as a list of 9 rows, each a list of
9 integers, with 0 denoting an empty cell.  Its pieces are embedded here as
executable Lean definitions:

* `checkrow r puzzle` — the source's `checkrow`: values 1..9 absent from row `r`;
* `checkcol c puzzle` — the source's `checkcol`: values 1..9 absent from column `c`;
* `boxCells n puzzle` — the local list `box` built inside the source's `checkbox`:
  the concatenation, for `j = 0,1,2`, of the slice
  `puzzle[(n/3)*3 + j][3*(n%3) : ((n%3)+1)*3]`;
* `checkbox n puzzle` — values 1..9 absent from `boxCells n puzzle`;
* `sud puzzle` — the source's `sud`: it first computes the lists
  `missingrow`, `missingcol`, `missingbox` from the input, then for every cell
  `(i,j)` of the 9×9 range either copies a nonzero value or, for an empty cell,
  intersects the three missing sets and writes the value exactly when the
  intersection is a singleton (otherwise writes 0).  The Python function
  returns the dictionary `{finished: grid}`; here that single key/value pair
  is the pair `(finished, grid)`, where `finished` is `true` exactly when no
  scanned cell of the input was 0 (the source initialises `finished = True`
  and sets it to `False` in the `puzzle[i][j] == 0` branch);
* `sudokuLoop n g` — the driving loop of the source's `sudoku`:
  `done = sud(puzzle); while False in done.keys(): done = sud(done[False])`,
  unrolled for up to `n+1` calls of `sud` (the loop itself has no bound, so it
  is embedded with explicit fuel; a run that never produces the key `True`
  corresponds to `sudokuLoop n g` being keyed `false` for every `n`).

Python list indexing raises on out-of-range indices; the embedding totalises
it with `List.getD` (default `[]` for a missing row, `0` for a missing cell),
which agrees with the source on every index actually used for 9×9 inputs.
The source intersects Python `set`s and only observes the length of the
resulting list and its sole element when that length is 1; since the missing
lists are duplicate-free ascending lists, filtering by membership gives a
list with exactly the same elements as the set intersection, hence the same
length and the same unique element, so the embedding is observably faithful.
-/

/-- A puzzle grid: a list of rows, each a list of cell values (0 = empty). -/
abbrev Grid := List (List Nat)

/-- Value of cell `(i, j)` of a grid (out-of-range reads give 0). -/
def cellVal (puzzle : Grid) (i j : Nat) : Nat :=
  (puzzle.getD i []).getD j 0

/-- `checkrow r puzzle` from the source: the numbers among 1..9 that do not
occur in row `r`. -/
def checkrow (r : Nat) (puzzle : Grid) : List Nat :=
  ((List.range 9).map (fun i => i + 1)).filter
    (fun v => decide (¬ v ∈ puzzle.getD r []))

/-- `checkcol c puzzle` from the source: the numbers among 1..9 that do not
occur in the list `[row[c] for row in puzzle]`. -/
def checkcol (c : Nat) (puzzle : Grid) : List Nat :=
  ((List.range 9).map (fun i => i + 1)).filter
    (fun v => decide (¬ v ∈ puzzle.map (fun row => row.getD c 0)))

/-- The local list `box` built by the source's `checkbox n`: for `j = 0,1,2`
it extends the list with the slice `puzzle[(n/3)*3 + j][3*(n%3) : ((n%3)+1)*3]`. -/
def boxCells (n : Nat) (puzzle : Grid) : List Nat :=
  ((List.range 3).map
    (fun j => ((puzzle.getD ((n / 3) * 3 + j) []).drop (3 * (n % 3))).take
      (((n % 3) + 1) * 3 - 3 * (n % 3)))).flatten

/-- `checkbox n puzzle` from the source: the numbers among 1..9 that do not
occur in `boxCells n puzzle`. -/
def checkbox (n : Nat) (puzzle : Grid) : List Nat :=
  ((List.range 9).map (fun i => i + 1)).filter
    (fun v => decide (¬ v ∈ boxCells n puzzle))

/-- The source's local array `missingrow`: `checkrow i puzzle` for `i = 0..8`. -/
def missingrow (puzzle : Grid) : List (List Nat) :=
  (List.range 9).map (fun i => checkrow i puzzle)

/-- The source's local array `missingcol`: `checkcol i puzzle` for `i = 0..8`. -/
def missingcol (puzzle : Grid) : List (List Nat) :=
  (List.range 9).map (fun i => checkcol i puzzle)

/-- The source's local array `missingbox`: `checkbox i puzzle` for `i = 0..8`. -/
def missingbox (puzzle : Grid) : List (List Nat) :=
  (List.range 9).map (fun i => checkbox i puzzle)

/-- The `finished` flag computed by the source's `sud`: it starts `True` and is
set to `False` exactly when some scanned cell `(i,j)`, `i,j < 9`, is 0. -/
def isComplete (puzzle : Grid) : Bool :=
  (List.range 9).all (fun i => (List.range 9).all (fun j => ! (cellVal puzzle i j == 0)))

/-- The entry the source's `sud` appends to `solution` for cell `(i,j)`:
a nonzero input value is copied; for an empty cell the three missing lists
(indexed as in the source, the box by `(i/3)*3 + (j/3)`) are intersected and
the sole element is written when the intersection has length 1, else 0. -/
def solutionCell (puzzle : Grid) (i j : Nat) : Nat :=
  if cellVal puzzle i j = 0 then
    let mr := (missingrow puzzle).getD i []
    let mc := (missingcol puzzle).getD j []
    let mb := (missingbox puzzle).getD ((i / 3) * 3 + (j / 3)) []
    let tmp := (mr.filter (fun v => decide (v ∈ mc))).filter (fun v => decide (v ∈ mb))
    if tmp.length = 1 then tmp.headD 0 else 0
  else cellVal puzzle i j

/-- The source's `sud`: returns the pair `(finished, solution1)` embedding the
returned one-entry dictionary `{finished: solution1}`. -/
def sud (puzzle : Grid) : Bool × Grid :=
  (isComplete puzzle,
    (List.range 9).map (fun i => (List.range 9).map (fun j => solutionCell puzzle i j)))

/-- The candidate set the source computes for cell `(i,j)`: the intersection of
the row-`i`, column-`j` and box-`(i/3)*3 + (j/3)` missing sets, as a
duplicate-free ascending list. -/
def candidates (puzzle : Grid) (i j : Nat) : List Nat :=
  ((checkrow i puzzle).filter (fun v => decide (v ∈ checkcol j puzzle))).filter
    (fun v => decide (v ∈ checkbox ((i / 3) * 3 + (j / 3)) puzzle))

/-- The driving loop of the source's `sudoku`, with explicit fuel: the first
`sud` call followed by up to `n` further iterations of
`while False in done.keys(): done = sud(done[False])`. -/
def sudokuLoop : Nat → Grid → Bool × Grid
  | 0, g => sud g
  | n + 1, g => if (sud g).1 then sud g else sudokuLoop n (sud g).2

/-- `sweeps n g`: the grid after `n` consecutive sweeps (`sud` grid outputs). -/
def sweeps : Nat → Grid → Grid
  | 0, g => g
  | n + 1, g => sweeps n (sud g).2

/-- Number of empty cells in the scanned 9×9 range. -/
def emptyCount (g : Grid) : Nat :=
  ((List.range 9).map
    (fun i => (List.range 9).countP (fun j => decide (cellVal g i j = 0)))).sum

/-- Well-formedness of a 9×9 grid: 9 rows of 9 entries each. -/
def gWF (g : Grid) : Prop :=
  g.length = 9 ∧ ∀ row ∈ g, row.length = 9

/-- The all-zero (fully empty) grid. -/
def zeroGrid : Grid :=
  [[0,0,0,0,0,0,0,0,0], [0,0,0,0,0,0,0,0,0], [0,0,0,0,0,0,0,0,0],
   [0,0,0,0,0,0,0,0,0], [0,0,0,0,0,0,0,0,0], [0,0,0,0,0,0,0,0,0],
   [0,0,0,0,0,0,0,0,0], [0,0,0,0,0,0,0,0,0], [0,0,0,0,0,0,0,0,0]]

/-- A grid whose cell (0,0) is empty with an empty candidate set (row 0 already
holds 1..8 and column 0 holds 9), while the empty cell (8,0) has the singleton
candidate set {8}. -/
def g3 : Grid :=
  [[0,1,2,3,4,5,6,7,8], [9,0,0,0,0,0,0,0,0], [0,0,0,0,0,0,0,0,0],
   [0,0,0,0,0,0,0,0,0], [0,0,0,0,0,0,0,0,0], [0,0,0,0,0,0,0,0,0],
   [0,0,0,0,0,0,0,0,0], [0,0,0,0,0,0,0,0,0], [0,9,1,2,3,4,5,6,7]]

/-- A malformed grid: the clue 5 appears at both (0,0) and (1,1), two distinct
cells of the same 3×3 box (and hence duplicate nonzero values in one box). -/
def g4 : Grid :=
  [[5,0,0,0,0,0,0,0,0], [0,5,0,0,0,0,0,0,0], [0,0,0,0,0,0,0,0,0],
   [0,0,0,0,0,0,0,0,0], [0,0,0,0,0,0,0,0,0], [0,0,0,0,0,0,0,0,0],
   [0,0,0,0,0,0,0,0,0], [0,0,0,0,0,0,0,0,0], [0,0,0,0,0,0,0,0,0]]

/-- A complete (no zero cell) grid. -/
def allOnes : Grid :=
  [[1,1,1,1,1,1,1,1,1], [1,1,1,1,1,1,1,1,1], [1,1,1,1,1,1,1,1,1],
   [1,1,1,1,1,1,1,1,1], [1,1,1,1,1,1,1,1,1], [1,1,1,1,1,1,1,1,1],
   [1,1,1,1,1,1,1,1,1], [1,1,1,1,1,1,1,1,1], [1,1,1,1,1,1,1,1,1]]

/-! ### Helper lemmas -/

/-- A list of length 9 is a literal nine-element list. -/
theorem exists_nine {α : Type} (l : List α) (h : l.length = 9) :
    ∃ a b c d e f g h9 i, l = [a, b, c, d, e, f, g, h9, i] := by
  match l, h with
  | [a, b, c, d, e, f, g, h9, i], _ => exact ⟨a, b, c, d, e, f, g, h9, i, rfl⟩

/-- Reading position `i < 9` of a map over `List.range 9`. -/
theorem getD_map_range {α : Type} (f : Nat → α) (d : α) (i : Nat) (hi : i < 9) :
    ((List.range 9).map f).getD i d = f i := by
  interval_cases i <;> rfl

/-- The box index used by `sud` is in range for in-range cells. -/
theorem boxIdx_lt (i j : Nat) (hi : i < 9) (hj : j < 9) : (i / 3) * 3 + j / 3 < 9 := by
  omega

/-- Each cell of the grid returned by `sud` is `solutionCell` of the input:
the sweep's output is a per-cell function of the grid as it was at the start
of the sweep. -/
theorem cellVal_sud (g : Grid) (i j : Nat) (hi : i < 9) (hj : j < 9) :
    cellVal (sud g).2 i j = solutionCell g i j := by
  show (((sud g).2.getD i []).getD j 0) = _
  have h1 : (sud g).2
      = (List.range 9).map (fun a => (List.range 9).map (fun b => solutionCell g a b)) := rfl
  rw [h1, getD_map_range _ _ i hi, getD_map_range _ _ j hj]

/-- `solutionCell` rewritten through `candidates`: for in-range indices the
intersection the source computes from its three precomputed missing lists is
exactly `candidates g i j`. -/
theorem solutionCell_eq (g : Grid) (i j : Nat) (hi : i < 9) (hj : j < 9) :
    solutionCell g i j =
      if cellVal g i j = 0 then
        (if (candidates g i j).length = 1 then (candidates g i j).headD 0 else 0)
      else cellVal g i j := by
  have e1 : (missingrow g).getD i [] = checkrow i g := getD_map_range _ _ i hi
  have e2 : (missingcol g).getD j [] = checkcol j g := getD_map_range _ _ j hj
  have e3 : (missingbox g).getD ((i / 3) * 3 + j / 3) []
      = checkbox ((i / 3) * 3 + j / 3) g :=
    getD_map_range _ _ _ (boxIdx_lt i j hi hj)
  simp only [solutionCell, missingrow, missingcol, missingbox] at *
  simp only [e1, e2, e3]
  rfl

/-- Members of a row missing-list are at least 1 (they are `i + 1` for `i` in
`range 9`). -/
theorem one_le_of_mem_checkrow {v r : Nat} {g : Grid} (h : v ∈ checkrow r g) : 1 ≤ v := by
  simp only [checkrow, List.mem_filter, List.mem_map, List.mem_range] at h
  obtain ⟨⟨a, ha, rfl⟩, -⟩ := h
  omega

/-- The head of a one-element list is its member. -/
theorem headD_mem_of_length_one {l : List Nat} (h : l.length = 1) : l.headD 0 ∈ l := by
  match l, h with
  | [a], _ => simp

/-- A well-formed grid equals the row-major table of its cell values. -/
theorem grid_eta (g : Grid) (hg : gWF g) :
    g = (List.range 9).map (fun i => (List.range 9).map (fun j => cellVal g i j)) := by
  obtain ⟨r0, r1, r2, r3, r4, r5, r6, r7, r8, rfl⟩ := exists_nine g hg.1
  have hr := hg.2
  obtain ⟨a0, a1, a2, a3, a4, a5, a6, a7, a8, rfl⟩ := exists_nine r0 (hr r0 (by simp))
  obtain ⟨b0, b1, b2, b3, b4, b5, b6, b7, b8, rfl⟩ := exists_nine r1 (hr r1 (by simp))
  obtain ⟨c0, c1, c2, c3, c4, c5, c6, c7, c8, rfl⟩ := exists_nine r2 (hr r2 (by simp))
  obtain ⟨d0, d1, d2, d3, d4, d5, d6, d7, d8, rfl⟩ := exists_nine r3 (hr r3 (by simp))
  obtain ⟨e0, e1, e2, e3, e4, e5, e6, e7, e8, rfl⟩ := exists_nine r4 (hr r4 (by simp))
  obtain ⟨f0, f1, f2, f3, f4, f5, f6, f7, f8, rfl⟩ := exists_nine r5 (hr r5 (by simp))
  obtain ⟨p0, p1, p2, p3, p4, p5, p6, p7, p8, rfl⟩ := exists_nine r6 (hr r6 (by simp))
  obtain ⟨q0, q1, q2, q3, q4, q5, q6, q7, q8, rfl⟩ := exists_nine r7 (hr r7 (by simp))
  obtain ⟨s0, s1, s2, s3, s4, s5, s6, s7, s8, rfl⟩ := exists_nine r8 (hr r8 (by simp))
  rfl

/-- `sud` on the all-zero grid: no assignment is made (every empty cell has all
nine candidates) and the result is keyed `false`. -/
theorem sud_zeroGrid : sud zeroGrid = (false, zeroGrid) := by decide

/-! ### Claim theorems -/

/-- Claim C1, code_bug evidence: the all-zero grid is a solvable input, yet the
driving loop never produces a result keyed `True` on it — after any number of
iterations the state is still `(false, zeroGrid)`, so the source's
`while False in done.keys()` loop runs forever and the solve process does not
terminate, contradicting the claim that it terminates on every solvable input. -/
theorem c1_loop_never_finishes_on_zeroGrid :
    ∀ n, sudokuLoop n zeroGrid = (false, zeroGrid) := by
  intro n
  induction n with
  | zero => exact sud_zeroGrid
  | succ m ih =>
      show (if (sud zeroGrid).1 then sud zeroGrid else sudokuLoop m (sud zeroGrid).2)
        = (false, zeroGrid)
      simp only [sud_zeroGrid]
      simpa using ih

/-- Claim C2, code_bug evidence: on the all-zero grid a sweep makes no
assignment (the output grid equals the input), yet the result is keyed `False`,
so the loop repeats — and every further iteration is in the identical state.
A no-assignment sweep therefore does not halt the source's loop: the loop
condition is incompleteness of the last sweep's input, not progress. -/
theorem c2_no_assignment_sweep_does_not_halt_loop :
    (sud zeroGrid).2 = zeroGrid ∧ (sud zeroGrid).1 = false ∧
      ∀ n, sudokuLoop (n + 1) zeroGrid = sudokuLoop n zeroGrid := by
  refine ⟨by decide, by decide, ?_⟩
  intro n
  show (if (sud zeroGrid).1 then sud zeroGrid else sudokuLoop n (sud zeroGrid).2)
      = sudokuLoop n zeroGrid
  simp only [sud_zeroGrid]
  simp

/-- Claim C4, code_bug evidence: `g4` carries the duplicate clue 5 at the
distinct cells (0,0) and (1,1) of one 3×3 box, i.e. it is malformed; the
source has no validity check, and its driving loop invokes the solver `sud`
on this grid — forever, since no cell is ever assigned. The claim that such
input is rejected before solving fails. -/
theorem c4_solver_invoked_on_malformed_input :
    cellVal g4 0 0 = 5 ∧ cellVal g4 1 1 = 5 ∧
      (0 / 3) * 3 + 0 / 3 = (1 / 3) * 3 + 1 / 3 ∧
      ∀ n, sudokuLoop n g4 = (false, g4) := by
  have h4 : sud g4 = (false, g4) := by decide
  refine ⟨rfl, rfl, rfl, ?_⟩
  intro n
  induction n with
  | zero => exact h4
  | succ m ih =>
      show (if (sud g4).1 then sud g4 else sudokuLoop m (sud g4).2) = (false, g4)
      simp only [h4]
      simpa using ih

/-- Counterexample to C3: in `g3` the empty cell (0,0) has an empty candidate
set, yet the sweep does not abort — it returns an ordinary result keyed
`false` and still scans and assigns the later empty cell (8,0). -/
theorem c3_counterexample :
    cellVal g3 0 0 = 0 ∧ candidates g3 0 0 = [] ∧ (sud g3).1 = false ∧
      cellVal g3 8 0 = 0 ∧ cellVal (sud g3).2 8 0 = 8 := by
  decide

/-- Amended C3: when an empty cell's candidate set is empty, no Contradiction
is reported and nothing aborts — the sweep records 0 for that cell and keeps
scanning, every cell of the output grid still being given by the per-cell
sweep rule applied to the input snapshot. -/
theorem c3_amended_empty_candidates_continue (g : Grid) (i j : Nat)
    (hi : i < 9) (hj : j < 9) (h0 : cellVal g i j = 0)
    (hnone : candidates g i j = []) :
    cellVal (sud g).2 i j = 0 ∧
      ∀ a b, a < 9 → b < 9 → cellVal (sud g).2 a b = solutionCell g a b := by
  constructor
  · rw [cellVal_sud g i j hi hj, solutionCell_eq g i j hi hj, if_pos h0]
    simp [hnone]
  · intro a b ha hb
    exact cellVal_sud g a b ha hb

/-- Witness for the amended C3 at `g3`: cell (0,0) keeps the value 0 and the
clue cell (0,1) is still processed by the sweep rule. -/
theorem c3_amended_witness :
    cellVal (sud g3).2 0 0 = 0 ∧ cellVal (sud g3).2 0 1 = solutionCell g3 0 1 := by
  have h := c3_amended_empty_candidates_continue g3 0 0 (by decide) (by decide)
    (by decide) (by decide)
  exact ⟨h.1, h.2 0 1 (by decide) (by decide)⟩

/-- Claim C5: for every empty in-range cell, the sweep's candidate set is the
three-way intersection of the row-`i`, column-`j` and box-`(i/3)*3 + (j/3)`
missing sets, and the sweep assigns the cell exactly when that intersection
has exactly one element. -/
theorem c5_candidates_and_singleton_assignment (g : Grid) (i j : Nat)
    (hi : i < 9) (hj : j < 9) (h0 : cellVal g i j = 0) :
    (∀ v, v ∈ candidates g i j ↔
        (v ∈ checkrow i g ∧ v ∈ checkcol j g ∧ v ∈ checkbox ((i / 3) * 3 + j / 3) g)) ∧
    cellVal (sud g).2 i j
      = (if (candidates g i j).length = 1 then (candidates g i j).headD 0 else 0) ∧
    (¬ cellVal (sud g).2 i j = 0 ↔ (candidates g i j).length = 1) := by
  have hcell : cellVal (sud g).2 i j
      = (if (candidates g i j).length = 1 then (candidates g i j).headD 0 else 0) := by
    rw [cellVal_sud g i j hi hj, solutionCell_eq g i j hi hj, if_pos h0]
  refine ⟨?_, hcell, ?_⟩
  · intro v
    simp only [candidates, List.mem_filter, decide_eq_true_eq]
    tauto
  · rw [hcell]
    by_cases hlen : (candidates g i j).length = 1
    · rw [if_pos hlen]
      have hpos : 1 ≤ (candidates g i j).headD 0 := by
        have hmem : (candidates g i j).headD 0 ∈ checkrow i g := by
          have h2 := headD_mem_of_length_one hlen
          simp only [candidates, List.mem_filter] at h2
          exact h2.1.1
        exact one_le_of_mem_checkrow hmem
      constructor
      · intro _; exact hlen
      · intro _; omega
    · rw [if_neg hlen]
      simp [hlen]

/-- Witness for C5 at cell (8,0) of `g3`, whose candidate set is `[8]`. -/
theorem c5_witness :
    cellVal g3 8 0 = 0 ∧
    (8 ∈ candidates g3 8 0 ↔
      (8 ∈ checkrow 8 g3 ∧ 8 ∈ checkcol 0 g3 ∧ 8 ∈ checkbox ((8 / 3) * 3 + 0 / 3) g3)) ∧
    cellVal (sud g3).2 8 0
      = (if (candidates g3 8 0).length = 1 then (candidates g3 8 0).headD 0 else 0) := by
  have h := c5_candidates_and_singleton_assignment g3 8 0 (by decide) (by decide) (by decide)
  exact ⟨by decide, h.1 8, h.2.1⟩

/-- Claim C7: each output cell of a sweep equals `solutionCell` of the input —
a function only of the grid as it was at the start of the sweep, computed from
the snapshot missing sets, never from assignments staged earlier in the same
sweep — and `sud` yields equal outputs on equal inputs. -/
theorem c7_snapshot_semantics_deterministic :
    (∀ g i j, i < 9 → j < 9 → cellVal (sud g).2 i j = solutionCell g i j) ∧
    (∀ g1 g2 : Grid, g1 = g2 → sud g1 = sud g2) :=
  ⟨fun g i j hi hj => cellVal_sud g i j hi hj, fun _ _ h => by rw [h]⟩

/-- Witness for C7 at cell (8,0) of `g3`. -/
theorem c7_witness :
    cellVal (sud g3).2 8 0 = solutionCell g3 8 0 ∧ solutionCell g3 8 0 = 8 :=
  ⟨c7_snapshot_semantics_deterministic.1 g3 8 0 (by decide) (by decide), by decide⟩

/-- Claim C8: a sweep copies every nonzero input cell unchanged to its output,
and consequently the empty-cell count never increases across a sweep. -/
theorem c8_filled_cells_preserved :
    (∀ g i j, i < 9 → j < 9 → ¬ cellVal g i j = 0 →
      cellVal (sud g).2 i j = cellVal g i j) ∧
    (∀ g, emptyCount (sud g).2 ≤ emptyCount g) := by
  have hcopy : ∀ g i j, i < 9 → j < 9 → ¬ cellVal g i j = 0 →
      cellVal (sud g).2 i j = cellVal g i j := by
    intro g i j hi hj hne
    rw [cellVal_sud g i j hi hj]
    simp only [solutionCell]
    rw [if_neg hne]
  refine ⟨hcopy, ?_⟩
  intro g
  unfold emptyCount
  apply List.sum_le_sum
  intro i hi
  apply List.countP_mono_left
  intro j hj hzero
  simp only [List.mem_range] at hi hj
  simp only [decide_eq_true_eq] at hzero ⊢
  by_contra hne
  have hkeep := hcopy g i j hi hj hne
  omega

/-- Witness for C8: the clue 1 at cell (0,1) of `g3` survives the sweep, and
the sweep does not increase the empty-cell count of `g3`. -/
theorem c8_witness :
    cellVal (sud g3).2 0 1 = cellVal g3 0 1 ∧ emptyCount (sud g3).2 ≤ emptyCount g3 :=
  ⟨c8_filled_cells_preserved.1 g3 0 1 (by decide) (by decide) (by decide),
   c8_filled_cells_preserved.2 g3⟩

/-- Claim C9: a grid on which a sweep makes no assignment (its sweep output
equals the input) is left unchanged by any number of further sweeps. -/
theorem c9_fixed_point_idempotent (g : Grid) (hfix : (sud g).2 = g) :
    ∀ n, sweeps n g = g := by
  intro n
  induction n with
  | zero => rfl
  | succ m ih =>
      show sweeps m (sud g).2 = g
      rw [hfix]
      exact ih

/-- Witness for C9 at the all-zero grid, a fixed point of the sweep. -/
theorem c9_witness : (sud zeroGrid).2 = zeroGrid ∧ sweeps 4 zeroGrid = zeroGrid :=
  ⟨by decide, c9_fixed_point_idempotent zeroGrid (by decide) 4⟩

/-- Claim C10: the flag returned by `sud` reflects its input grid — the result
is keyed `True` exactly when the input is already complete — so a sweep that
fills the last empty cells is still keyed `False`, and on a complete
well-formed grid the one extra sweep the driver then performs returns the
grid unchanged with key `True`, stopping the loop whatever fuel remains. -/
theorem c10_flag_reflects_input (g : Grid) (hg : gWF g) :
    ((sud g).1 = true ↔ isComplete g = true) ∧
      (isComplete g = true → ∀ n, sudokuLoop n g = (true, g)) := by
  constructor
  · exact Iff.rfl
  · intro hc
    have hcells : ∀ i ∈ List.range 9, ∀ j ∈ List.range 9, ¬ cellVal g i j = 0 := by
      have hc2 := hc
      simp only [isComplete, List.all_eq_true, Bool.not_eq_true', beq_eq_false_iff_ne,
        ne_eq] at hc2
      exact hc2
    have hstep : (List.range 9).map (fun i => (List.range 9).map (fun j => solutionCell g i j))
        = (List.range 9).map (fun i => (List.range 9).map (fun j => cellVal g i j)) := by
      apply List.map_congr_left
      intro i hi
      apply List.map_congr_left
      intro j hj
      simp only [solutionCell]
      rw [if_neg (hcells i hi j hj)]
    have hgrid : (List.range 9).map (fun i => (List.range 9).map (fun j => solutionCell g i j))
        = g := hstep.trans (grid_eta g hg).symm
    have hsud : sud g = (true, g) := by
      show (isComplete g,
        (List.range 9).map (fun i => (List.range 9).map (fun j => solutionCell g i j)))
          = (true, g)
      rw [hc, hgrid]
    intro n
    cases n with
    | zero => exact hsud
    | succ m =>
        show (if (sud g).1 then sud g else sudokuLoop m (sud g).2) = (true, g)
        simp only [hsud]
        simp

/-- Witness for C10 at the complete grid `allOnes`. -/
theorem c10_witness :
    ((sud allOnes).1 = true ↔ isComplete allOnes = true) ∧
      sudokuLoop 2 allOnes = (true, allOnes) := by
  have h := c10_flag_reflects_input allOnes (by constructor <;> decide)
  exact ⟨h.1, h.2 (by decide) 2⟩

/-- Claim C6: on a well-formed grid, the cell list scanned by the source's
`checkbox b` is exactly the 3×3 block `{(3*(b/3)+dr, 3*(b%3)+dc) : dr, dc < 3}`
in row-major order; the missing set of box `b` is computed from exactly those
cells; and the lookup index `(i/3)*3 + (j/3)` used by `sud` maps each cell of
that block back to `b`, so the two mappings are mutually consistent. -/
theorem c6_box_mapping (g : Grid) (hg : gWF g) (b : Nat) (hb : b < 9) :
    boxCells b g = ((List.range 3).map
        (fun dr => (List.range 3).map
          (fun dc => cellVal g (3 * (b / 3) + dr) (3 * (b % 3) + dc)))).flatten ∧
    checkbox b g = ((List.range 9).map (fun i => i + 1)).filter
        (fun v => decide (¬ v ∈ ((List.range 3).map
          (fun dr => (List.range 3).map
            (fun dc => cellVal g (3 * (b / 3) + dr) (3 * (b % 3) + dc)))).flatten)) ∧
    ∀ dr dc, dr < 3 → dc < 3 →
      ((3 * (b / 3) + dr) / 3) * 3 + (3 * (b % 3) + dc) / 3 = b := by
  obtain ⟨r0, r1, r2, r3, r4, r5, r6, r7, r8, rfl⟩ := exists_nine g hg.1
  have hr := hg.2
  obtain ⟨a0, a1, a2, a3, a4, a5, a6, a7, a8, rfl⟩ := exists_nine r0 (hr r0 (by simp))
  obtain ⟨b0, b1, b2, b3, b4, b5, b6, b7, b8, rfl⟩ := exists_nine r1 (hr r1 (by simp))
  obtain ⟨c0, c1, c2, c3, c4, c5, c6, c7, c8, rfl⟩ := exists_nine r2 (hr r2 (by simp))
  obtain ⟨d0, d1, d2, d3, d4, d5, d6, d7, d8, rfl⟩ := exists_nine r3 (hr r3 (by simp))
  obtain ⟨e0, e1, e2, e3, e4, e5, e6, e7, e8, rfl⟩ := exists_nine r4 (hr r4 (by simp))
  obtain ⟨f0, f1, f2, f3, f4, f5, f6, f7, f8, rfl⟩ := exists_nine r5 (hr r5 (by simp))
  obtain ⟨p0, p1, p2, p3, p4, p5, p6, p7, p8, rfl⟩ := exists_nine r6 (hr r6 (by simp))
  obtain ⟨q0, q1, q2, q3, q4, q5, q6, q7, q8, rfl⟩ := exists_nine r7 (hr r7 (by simp))
  obtain ⟨s0, s1, s2, s3, s4, s5, s6, s7, s8, rfl⟩ := exists_nine r8 (hr r8 (by simp))
  interval_cases b <;>
    exact ⟨rfl, rfl, by intro dr dc h1 h2; omega⟩

/-- Witness for C6 at `g3`, box 4, offsets (1,2). -/
theorem c6_witness :
    boxCells 4 g3 = ((List.range 3).map
        (fun dr => (List.range 3).map
          (fun dc => cellVal g3 (3 * (4 / 3) + dr) (3 * (4 % 3) + dc)))).flatten ∧
      ((3 * (4 / 3) + 1) / 3) * 3 + (3 * (4 % 3) + 2) / 3 = 4 := by
  have h := c6_box_mapping g3 (by constructor <;> decide) 4 (by decide)
  exact ⟨h.1, h.2.2 1 2 (by decide) (by decide)⟩
